import Mathlib

/-!
Verification of the interrupt-driven I/O subsystem of the `hello-ra4m1`
firmware (files `uart/src/main.rs`, `gpt_timer/src/main.rs`,
`pac/src/main.rs`).

The embedding is shallow: each interrupt handler and each driver call is a
Lean function on an explicit machine-state record.  Hardware registers are
modelled only in the fields the program reads or writes (the SCR serial
control register, the SSR error-status flags, the GPT status flag TCFPO,
the ICU pending bit IR, the data registers RDR/TDR).  The two `bbqueue`
byte queues are modelled as bounded byte lists: a `grant_exact(n)` followed
by a full `commit(n)` appends `n` bytes and succeeds exactly when the queue
has `n` free slots; a failed grant is an `Option.none`, which in the Rust
source is turned into a panic by `.unwrap()`.  A function returning
`Option` thus returns `none` exactly on the source's panic paths.
-/

namespace HelloRa4m1

/-- Byte queue contents, oldest byte first.  Models one `bbqueue` `Jerk<64>`
instance (`RXD_QUEUE` / `TXD_QUEUE`, uart/src/main.rs lines 132-138). -/
structure ByteQueue where
  data : List Nat
deriving DecidableEq

/-- Queue capacity, `const QUEUE_SIZE: usize = 64` (uart/src/main.rs line 132). -/
def QUEUE_SIZE : Nat := 64

/-- Models `grant_exact(bytes.len())` followed by writing `bytes` and
`commit(bytes.len())`: all-or-nothing append, succeeding exactly when the
queue has enough free slots.  `none` models the failed grant, whose
`.unwrap()` in the source panics. -/
def grantCommit (q : ByteQueue) (bytes : List Nat) : Option ByteQueue :=
  if q.data.length + bytes.length ≤ QUEUE_SIZE then some ⟨q.data ++ bytes⟩ else none

/-- Models `stream_consumer().read()` followed by `release(1)`: remove and
return the oldest byte, or `none` when the queue is empty (the `Err` branch
of `txd_cons.read()` in IEL7). -/
def readRelease1 (q : ByteQueue) : Option (Nat × ByteQueue) :=
  match q.data with
  | [] => none
  | byte :: rest => some (byte, ⟨rest⟩)

/-- The five SCR serial-control-register bits the program uses
(SCI1.SCR): receive-interrupt enable, transmit-data-empty interrupt
enable, transmission-complete interrupt enable, receive enable, transmit
enable. -/
structure ScrReg where
  rie : Bool
  tie : Bool
  teie : Bool
  re : Bool
  te : Bool
deriving DecidableEq

/-- The three latched error flags of the SSR serial-status register that
the program clears: parity, framing, overrun. -/
structure SsrReg where
  per : Bool
  fer : Bool
  orer : Bool
deriving DecidableEq

/-- State of the SCI1 UART driver: control register, error flags, the two
byte queues, the hardware receive and transmit data registers, and the
sequence of error-status values logged by the error handler
(`defmt::error!` in IEL9). -/
structure SciState where
  scr : ScrReg
  ssr : SsrReg
  txq : ByteQueue
  rxq : ByteQueue
  rdr : Nat
  tdr : Nat
  errLog : List Nat
deriving DecidableEq

/-- Carriage-return byte of the `b"\r\n"` terminator. -/
def CR : Nat := 13

/-- Line-feed byte of the `b"\r\n"` terminator. -/
def LF : Nat := 10

/-- SCR value established by `sci_module_init` (uart/src/main.rs lines
357-363): receive interrupt and receive enabled, both transmit interrupts
and the transmitter disabled. -/
def initScr : ScrReg := ⟨true, false, false, true, false⟩

/-- Driver state right after `sci_module_init`: SCR as above, error flags
cleared (lines 352-354), both queues empty. -/
def initState : SciState := ⟨initScr, ⟨false, false, false⟩, ⟨[]⟩, ⟨[]⟩, 0, 0, []⟩

/-- Models `uart_println` (uart/src/main.rs lines 395-412): obtain one
contiguous grant of `input.len() + 2` bytes on the TX queue via
`grant_exact(..).unwrap()`, copy the message and `b"\r\n"` into it, commit
it in full, then set SCR to tie=1, teie=0, te=1.  `none` models the
`.unwrap()` panic on a failed grant; nothing is enqueued in that case. -/
def uart_println (input : List Nat) (s : SciState) : Option SciState :=
  match grantCommit s.txq (input ++ [CR, LF]) with
  | none => none
  | some q =>
    some { s with txq := q, scr := { s.scr with tie := true, teie := false, te := true } }

/-- Models the receive-data interrupt handler `IEL6` (uart/src/main.rs
lines 370-392): read one byte from RDR and push it into the RX queue via
`grant_exact(1).unwrap()`; `none` models the `.unwrap()` panic when the RX
queue is full.  The RX-LED GPIO writes and the ICU pending-flag clear do
not touch the driver state modelled here. -/
def IEL6 (s : SciState) : Option SciState :=
  match grantCommit s.rxq [s.rdr] with
  | none => none
  | some q => some { s with rxq := q }

/-- Models the transmit-data-empty interrupt handler `IEL7`
(uart/src/main.rs lines 418-450): pop the TX queue; on a byte, write it to
TDR and keep tie=1, teie=0; on an empty queue, set tie=0, teie=1. -/
def IEL7 (s : SciState) : SciState :=
  match readRelease1 s.txq with
  | some (byte, q) =>
    { s with txq := q, tdr := byte, scr := { s.scr with tie := true, teie := false } }
  | none => { s with scr := { s.scr with tie := false, teie := true } }

/-- Models the transmission-complete interrupt handler `IEL8`
(uart/src/main.rs lines 456-474): unconditionally set tie=0, teie=0, te=0. -/
def IEL8 (s : SciState) : SciState :=
  { s with scr := { s.scr with tie := false, teie := false, te := false } }

/-- The SSR bits as read by `p.SCI1.ssr().read().bits()` restricted to the
three error flags modelled (ORER is bit 5, FER bit 4, PER bit 3 of SSR). -/
def ssrBits (r : SsrReg) : Nat :=
  (cond r.orer 32 0) + (cond r.fer 16 0) + (cond r.per 8 0)

/-- Models the error interrupt handler `IEL9` (uart/src/main.rs lines
480-495): read SSR and report it (append to the log), clear the parity,
framing and overrun flags, touch nothing else. -/
def IEL9 (s : SciState) : SciState :=
  { s with ssr := ⟨false, false, false⟩, errLog := s.errLog ++ [ssrBits s.ssr] }

/-- Driver state whose TX queue is completely full (no free slot). -/
def fullTxState : SciState := { initState with txq := ⟨List.replicate QUEUE_SIZE 0⟩ }

/-- Driver state whose RX queue is completely full (no free slot). -/
def fullRxState : SciState := { initState with rxq := ⟨List.replicate QUEUE_SIZE 0⟩ }

/-- One transition of the UART driver: a `uart_println` call from the main
loop (only its non-panicking runs produce a next state), or one run of the
receive, transmit-data-empty, transmission-complete, or error interrupt
handler.  Handler invocations are unrestricted here: the relation contains
every physically possible interleaving and more. -/
inductive Step : SciState → SciState → Prop
  | send (msg : List Nat) (s s' : SciState) : uart_println msg s = some s' → Step s s'
  | rxi (s s' : SciState) : IEL6 s = some s' → Step s s'
  | txi (s : SciState) : Step s (IEL7 s)
  | tei (s : SciState) : Step s (IEL8 s)
  | eri (s : SciState) : Step s (IEL9 s)

/-- One transition of the UART driver with the hardware interrupt gating:
the SCI raises the transmit-data-empty interrupt only while SCR.tie is
set, the transmission-complete interrupt only while SCR.teie is set, and
the receive interrupt only while SCR.rie is set. -/
inductive StepG : SciState → SciState → Prop
  | send (msg : List Nat) (s s' : SciState) : uart_println msg s = some s' → StepG s s'
  | rxi (s s' : SciState) : s.scr.rie = true → IEL6 s = some s' → StepG s s'
  | txi (s : SciState) : s.scr.tie = true → StepG s (IEL7 s)
  | tei (s : SciState) : s.scr.teie = true → StepG s (IEL8 s)
  | eri (s : SciState) : StepG s (IEL9 s)

/-- Reflexive-transitive closure of a transition relation on driver
states. -/
inductive ReachFrom (R : SciState → SciState → Prop) : SciState → SciState → Prop
  | refl (s : SciState) : ReachFrom R s s
  | step {a b c : SciState} : ReachFrom R a b → R b c → ReachFrom R a c

/-- State produced by `uart_println [72] initState`: one data byte and the
CRLF terminator in the TX queue, SCR at tie=1, teie=0, te=1. -/
def demoSendState : SciState :=
  ⟨⟨true, true, false, true, true⟩, ⟨false, false, false⟩, ⟨[72, CR, LF]⟩, ⟨[]⟩, 0, 0, []⟩

/-- The hardware bits of the timer-tick source the program touches
(GPT320.GTST.TCFPO overflow status, ICU.IELSR10.IR pending bit) together
with the shared software flag `GPT320_TIMER_OVERFLOW_FLAG`
(uart/src/main.rs line 111). -/
structure TimerState where
  tcfpo : Bool
  ir : Bool
  flag : Bool
deriving DecidableEq

/-- Models the timer-overflow interrupt handler `IEL10` (uart/src/main.rs
lines 117-130): when GTST.TCFPO reads 1, set the shared overflow flag
inside a critical section and clear TCFPO; in all cases clear the ICU
pending bit. -/
def IEL10 (s : TimerState) : TimerState :=
  let s1 := if s.tcfpo then { s with flag := true, tcfpo := false } else s
  { s1 with ir := false }

/-- Models the main loop's timer poll (uart/src/main.rs lines 681-682):
inside a critical section, replace the shared overflow flag with false and
return the previous value. -/
def poll_and_clear (s : TimerState) : Bool × TimerState :=
  (s.flag, { s with flag := false })

/-- One event of a timer trace: the hardware overflow (which raises
TCFPO and IR and invokes the handler), or one main-loop poll. -/
inductive TEvent where
  | overflow
  | poll
deriving DecidableEq

/-- One event applied to the timer state, returning the poll result when
the event is a poll. -/
def timerStep (s : TimerState) : TEvent → TimerState × Option Bool
  | TEvent.overflow => (IEL10 { s with tcfpo := true, ir := true }, none)
  | TEvent.poll => ((poll_and_clear s).2, some (poll_and_clear s).1)

/-- Runs a list of timer events, collecting the poll results in order. -/
def runTimer (s : TimerState) : List TEvent → TimerState × List Bool
  | [] => (s, [])
  | e :: es =>
    ((runTimer (timerStep s e).1 es).1,
     (timerStep s e).2.toList ++ (runTimer (timerStep s e).1 es).2)

/-- Timer state at boot: no overflow recorded anywhere. -/
def timerInit : TimerState := ⟨false, false, false⟩

/-- An RGB color value (gpt_timer/src/main.rs lines 233-238,
pac/src/main.rs lines 223-228). -/
structure Rgb where
  r : Nat
  g : Nat
  b : Nat
deriving DecidableEq

/-- The 24-bit word `(g << 16) | (r << 8) | b` computed by `ws2812b_write`
(gpt_timer/src/main.rs line 276, pac/src/main.rs line 241). -/
def ws2812b_grb (v : Rgb) : Nat := v.g <<< 16 ||| v.r <<< 8 ||| v.b

/-- Models `ws2812b_write` (gpt_timer/src/main.rs lines 275-298,
pac/src/main.rs lines 240-263): the loop runs `bit_digit` from 23 down
to 0 and emits one GPIO pulse per iteration whose symbol is
`grb >> bit_digit & 1` (0 = short high pulse, 1 = long high pulse).  The
value returned here is the sequence of emitted bit symbols; the nop-based
pulse timing carries no information beyond that bit. -/
def ws2812b_write (v : Rgb) : List Nat :=
  ((List.range 24).reverse).map (fun d => ws2812b_grb v >>> d &&& 1)

/-- The eight bits of a byte, most significant first. -/
def byteBitsMsbFirst (x : Nat) : List Nat :=
  ((List.range 8).reverse).map (fun d => x >>> d &&& 1)

/-- Decimal digits of a natural number, most significant first, via an
explicit fuel argument (`fuel` at least the number itself). -/
def digitsAux : Nat → Nat → List Nat
  | 0, _ => []
  | fuel + 1, n => if n < 10 then [n] else digitsAux fuel (n / 10) ++ [n % 10]

/-- Decimal digits of a natural number, most significant first. -/
def natDecimalDigits (n : Nat) : List Nat := digitsAux (n + 1) n

/-- ASCII code of a decimal digit. -/
def asciiDigit (d : Nat) : Nat := 48 + d

/-- Models Rust's fixed-point formatting `{:.4}` for an exact nonnegative
value given in units of one ten-thousandth: integer part, the dot, then
exactly four fractional digits. -/
def fmtFixed4 (x : Nat) : List Nat :=
  (natDecimalDigits (x / 10000)).map asciiDigit ++ [46] ++
    (List.replicate (4 - (natDecimalDigits (x % 10000)).length) 48 ++
      (natDecimalDigits (x % 10000)).map asciiDigit)

/-- Right-alignment to a field width by left-padding with spaces, the `>`
width directive of Rust formatting. -/
def padLeft (w : Nat) (l : List Nat) : List Nat := List.replicate (w - l.length) 32 ++ l

/-- Models the message built by `format!("{:>8.04} C", t)` in the main
loop (uart/src/main.rs line 688) for an exact nonnegative temperature
given in units of one ten-thousandth of a degree: the value formatted
with four fractional digits, right-aligned to width 8, followed by a
space and the letter C. -/
def formatTemp (x : Nat) : List Nat := padLeft 8 (fmtFixed4 x) ++ [32, 67]

/-- Models one pass of the main loop (uart/src/main.rs lines 679-697):
poll and clear the shared timer flag; if it was set, read the temperature
(the opaque sensor read is the parameter `tempTenThousandths`), send the
formatted message over the UART driver, and drain the RX queue for
logging.  `none` models a panic inside `uart_println`. -/
def mainTick (tempTenThousandths : Nat) (s : SciState) (tm : TimerState) :
    Option (SciState × TimerState) :=
  if (poll_and_clear tm).1 then
    match uart_println (formatTemp tempTenThousandths) s with
    | none => none
    | some s1 => some ({ s1 with rxq := ⟨[]⟩ }, (poll_and_clear tm).2)
  else some (s, (poll_and_clear tm).2)

end HelloRa4m1

namespace HelloRa4m1

/-- Claim C1 (counterexample).  The claim says that a send into a TX queue
with fewer free slots than the message length enqueues only the available
number of bytes and does not panic.  At the concrete input: message `[65]`
and a TX queue with 0 free slots, `uart_println` instead hits the failed
`grant_exact(3).unwrap()` and panics (modelled by `none`), enqueuing
nothing, so the claim as stated is false. -/
theorem C1_counterexample : uart_println [65] fullTxState = none := rfl

/-- Claim C1 (amended).  Whenever the TX queue has fewer than
`input.len() + 2` free slots, `uart_println` panics (the failed
`grant_exact(input.len() + 2).unwrap()`, modelled by `none`) and enqueues
nothing; it never performs a partial enqueue, never blocks, and never
writes beyond the queue capacity. -/
theorem C1_send_panics_on_insufficient_space (msg : List Nat) (s : SciState)
    (h : QUEUE_SIZE < s.txq.data.length + (msg.length + 2)) :
    uart_println msg s = none := by
  unfold uart_println grantCommit
  have hlen : (msg ++ [CR, LF]).length = msg.length + 2 := by
    simp [List.length_append]
  rw [hlen, if_neg (by omega)]

/-- Claim C1 (witness): the amended theorem applied at the concrete input
of the counterexample. -/
theorem C1_witness :
    QUEUE_SIZE < fullTxState.txq.data.length + (([65] : List Nat).length + 2) ∧
    uart_println [65] fullTxState = none :=
  ⟨by decide, C1_send_panics_on_insufficient_space [65] fullTxState (by decide)⟩

/-- Claim C2 (counterexample).  The claim says that when the RX queue is
full the received byte is silently dropped and the handler completes
without panic.  At the concrete input: RX queue with 0 free slots, the
handler `IEL6` instead hits the failed `grant_exact(1).unwrap()` and
panics (modelled by `none`), so the claim as stated is false. -/
theorem C2_counterexample : IEL6 fullRxState = none := rfl

/-- Claim C2 (amended).  The receive-data interrupt handler reads one byte
from RDR and pushes it into the RX queue when the queue has a free slot;
when the RX queue is full, the `grant_exact(1).unwrap()` fails and the
handler panics (modelled by `none`) instead of silently dropping the
byte. -/
theorem C2_rx_handler_pushes_or_panics (s : SciState) :
    (s.rxq.data.length < QUEUE_SIZE →
      IEL6 s = some { s with rxq := ⟨s.rxq.data ++ [s.rdr]⟩ }) ∧
    (QUEUE_SIZE ≤ s.rxq.data.length → IEL6 s = none) := by
  constructor
  · intro h
    unfold IEL6 grantCommit
    rw [if_pos (by simp; omega)]
  · intro h
    unfold IEL6 grantCommit
    rw [if_neg (by simp; omega)]

/-- Claim C2 (witness): the amended theorem applied at the empty-queue
initial state (push succeeds) and at the full-queue state (panic). -/
theorem C2_witness :
    IEL6 initState = some { initState with rxq := ⟨[0]⟩ } ∧ IEL6 fullRxState = none :=
  ⟨(C2_rx_handler_pushes_or_panics initState).1 (by decide),
   (C2_rx_handler_pushes_or_panics fullRxState).2 (by decide)⟩

/-- SCR value written by a successful `uart_println` (lines 407-411):
tie=1, teie=0, te=1, receive bits untouched. -/
theorem uart_println_scr {msg : List Nat} {s s' : SciState}
    (h : uart_println msg s = some s') :
    s'.scr = ⟨s.scr.rie, true, false, s.scr.re, true⟩ := by
  unfold uart_println at h
  cases hg : grantCommit s.txq (msg ++ [CR, LF]) <;> rw [hg] at h
  · exact absurd h (by simp)
  · cases h
    rfl

/-- A successful receive-interrupt handler run leaves SCR untouched. -/
theorem IEL6_scr {s s' : SciState} (h : IEL6 s = some s') : s'.scr = s.scr := by
  unfold IEL6 at h
  cases hg : grantCommit s.rxq [s.rdr] <;> rw [hg] at h
  · exact absurd h (by simp)
  · cases h
    rfl

/-- The transmit-data-empty handler leaves SCR at tie=1, teie=0 (byte
popped) or tie=0, teie=1 (queue empty); rie, re, te are untouched. -/
theorem IEL7_scr (s : SciState) :
    (IEL7 s).scr = ⟨s.scr.rie, true, false, s.scr.re, s.scr.te⟩ ∨
    (IEL7 s).scr = ⟨s.scr.rie, false, true, s.scr.re, s.scr.te⟩ := by
  unfold IEL7
  cases readRelease1 s.txq with
  | none => right; rfl
  | some p => left; rfl

/-- The transmission-complete handler sets tie=0, teie=0, te=0 and leaves
rie, re untouched. -/
theorem IEL8_scr (s : SciState) :
    (IEL8 s).scr = ⟨s.scr.rie, false, false, s.scr.re, false⟩ := rfl

/-- The error handler leaves SCR untouched. -/
theorem IEL9_scr (s : SciState) : (IEL9 s).scr = s.scr := rfl


/-- After a transmit-data-empty handler run, tie and teie are never both
set, whatever the previous state was. -/
theorem IEL7_not_both {s : SciState} :
    ¬((IEL7 s).scr.tie = true ∧ (IEL7 s).scr.teie = true) := by
  rcases IEL7_scr s with h7 | h7 <;> rw [h7] <;> simp

/-- A transmit-data-empty handler run preserves the te-tracking invariant
when the transmitter was enabled. -/
theorem IEL7_te_invariant {s : SciState} (hte : s.scr.te = true) :
    ((IEL7 s).scr.te = true ↔ ((IEL7 s).scr.tie = true ∨ (IEL7 s).scr.teie = true)) := by
  rcases IEL7_scr s with h7 | h7 <;> rw [h7] <;> simp [hte]

/-- Claim C4.  In every state reachable from the initial configuration by
any sequence of send calls and receive, transmit-empty,
transmission-complete and error interrupts (handler invocations not even
restricted to enabled interrupts), the transmit-data-empty interrupt
enable (tie) and the transmission-complete interrupt enable (teie) are
never both set. -/
theorem C4_tie_teie_never_both_set (s : SciState) (h : ReachFrom Step initState s) :
    ¬(s.scr.tie = true ∧ s.scr.teie = true) := by
  induction h with
  | refl => decide
  | step _ hstep ih =>
    cases hstep with
    | send msg a b hs => rw [uart_println_scr hs]; simp
    | rxi a b h6 => rw [IEL6_scr h6]; exact ih
    | txi => exact IEL7_not_both
    | tei => rw [IEL8_scr]; simp
    | eri => rw [IEL9_scr]; exact ih

/-- Claim C4 (witness): the theorem applied to the initial state, which is
reachable by the empty sequence. -/
theorem C4_witness : ¬(initState.scr.tie = true ∧ initState.scr.teie = true) :=
  C4_tie_teie_never_both_set initState (ReachFrom.refl initState)

/-- Claim C9.  In every state reachable from the post-initialization
configuration under the hardware interrupt gating (a handler runs only
while its interrupt enable is set), the transmitter-enable bit te is set
exactly when at least one of tie and teie is set; moreover a successful
send sets te, and the transmission-complete handler clears it. -/
theorem C9_te_tracks_transmit_interrupts :
    (∀ s : SciState, ReachFrom StepG initState s →
      (s.scr.te = true ↔ (s.scr.tie = true ∨ s.scr.teie = true))) ∧
    (∀ (msg : List Nat) (s s' : SciState), uart_println msg s = some s' → s'.scr.te = true) ∧
    (∀ s : SciState, (IEL8 s).scr.te = false) := by
  refine ⟨?_, ?_, fun s => rfl⟩
  · intro s h
    induction h with
    | refl => decide
    | step _ hstep ih =>
      cases hstep with
      | send msg a b hs => rw [uart_println_scr hs]; simp
      | rxi a b hrie h6 => rw [IEL6_scr h6]; exact ih
      | txi a htie => exact IEL7_te_invariant (ih.mpr (Or.inl htie))
      | tei hteie => rw [IEL8_scr]; simp
      | eri => rw [IEL9_scr]; exact ih
  · intro msg s s' hs
    rw [uart_println_scr hs]

/-- Claim C9 (witness): the invariant at the initial state (reachable by
the empty sequence), the send conjunct at the concrete send of byte 72
from the initial state, and the clearing conjunct at the initial state. -/
theorem C9_witness :
    (initState.scr.te = true ↔ (initState.scr.tie = true ∨ initState.scr.teie = true)) ∧
    demoSendState.scr.te = true ∧ (IEL8 initState).scr.te = false :=
  ⟨C9_te_tracks_transmit_interrupts.1 initState (ReachFrom.refl initState),
   C9_te_tracks_transmit_interrupts.2.1 [72] initState demoSendState (by decide),
   C9_te_tracks_transmit_interrupts.2.2 initState⟩

/-- The transmit-data-empty handler changes neither rie nor re. -/
theorem IEL7_rie_re (s : SciState) :
    (IEL7 s).scr.rie = s.scr.rie ∧ (IEL7 s).scr.re = s.scr.re := by
  rcases IEL7_scr s with h | h <;> rw [h] <;> exact ⟨rfl, rfl⟩

/-- Any number of transmit-data-empty handler runs changes neither rie nor
re. -/
theorem iterate_IEL7_rie_re (k : Nat) (s : SciState) :
    (IEL7^[k] s).scr.rie = s.scr.rie ∧ (IEL7^[k] s).scr.re = s.scr.re := by
  induction k with
  | zero => exact ⟨rfl, rfl⟩
  | succ n ih =>
    rw [Function.iterate_succ_apply']
    exact ⟨(IEL7_rie_re _).1.trans ih.1, (IEL7_rie_re _).2.trans ih.2⟩

/-- Claim C3.  Starting from the initial ReceiveOnly configuration, for
every message that fits the TX queue (so that the send completes instead
of panicking), a `uart_println` call followed by N transmit-data-empty
interrupts (N = message length) followed by one transmission-complete
interrupt leaves SCR in exactly the initial ReceiveOnly configuration:
tie and teie disabled, transmitter disabled, receive and its interrupt
enabled. -/
theorem C3_send_then_drain_restores_receive_only (msg : List Nat)
    (h : msg.length + 2 ≤ QUEUE_SIZE) :
    ∃ s1, uart_println msg initState = some s1 ∧
      (IEL8 (IEL7^[msg.length] s1)).scr = initScr := by
  have hg : grantCommit initState.txq (msg ++ [CR, LF]) = some ⟨msg ++ [CR, LF]⟩ := by
    unfold grantCommit
    rw [if_pos (by simp [initState]; omega)]
    simp [initState]
  refine ⟨_, by unfold uart_println; rw [hg], ?_⟩
  rw [IEL8_scr, (iterate_IEL7_rie_re _ _).1, (iterate_IEL7_rie_re _ _).2]
  rfl

/-- Claim C3 (witness): the theorem at the concrete two-byte message
`[72, 73]`. -/
theorem C3_witness :
    ∃ s1, uart_println [72, 73] initState = some s1 ∧
      (IEL8 (IEL7^[([72, 73] : List Nat).length] s1)).scr = initScr :=
  C3_send_then_drain_restores_receive_only [72, 73] (by decide)

/-- Claim C10.  For every input slice and every driver state,
`uart_println` either commits the complete message (all input bytes
followed by CR LF, appended to the TX queue as one grant of
`input.len() + 2` bytes, which requires that many free slots) or panics
(modelled by `none`) when the queue cannot supply that much space; it
never enqueues a proper prefix of the message. -/
theorem C10_send_is_all_or_panic (msg : List Nat) (s : SciState) :
    (∃ s', uart_println msg s = some s' ∧
      s'.txq.data = s.txq.data ++ (msg ++ [CR, LF]) ∧
      s.txq.data.length + (msg.length + 2) ≤ QUEUE_SIZE) ∨
    (uart_println msg s = none ∧ QUEUE_SIZE < s.txq.data.length + (msg.length + 2)) := by
  unfold uart_println grantCommit
  have hlen : (msg ++ [CR, LF]).length = msg.length + 2 := by
    simp [List.length_append]
  rw [hlen]
  by_cases h : s.txq.data.length + (msg.length + 2) ≤ QUEUE_SIZE
  · left
    rw [if_pos h]
    exact ⟨_, rfl, rfl, h⟩
  · right
    rw [if_neg h]
    exact ⟨rfl, by omega⟩

/-- Setting the flag field to false is the identity on a state whose flag
is already false. -/
theorem eta_flag_false {s : TimerState} (h : s.flag = false) :
    ({ s with flag := false } : TimerState) = s := by
  cases s
  simp at h
  rw [h]

/-- A run of polls starting with a cleared flag returns false on every
poll and does not move the state. -/
theorem runTimer_polls_false (s : TimerState) (h : s.flag = false) (n : Nat) :
    runTimer s (List.replicate n TEvent.poll) = (s, List.replicate n false) := by
  induction n with
  | zero => rfl
  | succ m ih =>
    rw [List.replicate_succ]
    simp only [runTimer, timerStep, poll_and_clear]
    rw [eta_flag_false h, ih, h]
    rfl

/-- Poll results of a run decompose over trace concatenation. -/
theorem runTimer_append (s : TimerState) (l1 l2 : List TEvent) :
    runTimer s (l1 ++ l2) =
      ((runTimer (runTimer s l1).1 l2).1,
       (runTimer s l1).2 ++ (runTimer (runTimer s l1).1 l2).2) := by
  induction l1 generalizing s with
  | nil => rfl
  | cons e es ih =>
    simp only [List.cons_append, runTimer, List.append_eq]
    rw [ih]
    simp [List.append_assoc]

/-- The overflow event forces the state to cleared TCFPO, cleared IR, set
flag, whatever the previous state was. -/
theorem timerStep_overflow (s : TimerState) :
    timerStep s TEvent.overflow = (⟨false, false, true⟩, none) := rfl

/-- A run of polls right after an overflow returns true on the first poll
and false afterwards. -/
theorem runTimer_after_overflow (q : Nat) :
    (runTimer (⟨false, false, true⟩ : TimerState) (List.replicate q TEvent.poll)).2 =
      (if q = 0 then [] else true :: List.replicate (q - 1) false) := by
  cases q with
  | zero => rfl
  | succ m =>
    rw [List.replicate_succ]
    simp only [runTimer, timerStep, poll_and_clear]
    rw [show ({ (⟨false, false, true⟩ : TimerState) with flag := false } : TimerState) =
      (⟨false, false, false⟩ : TimerState) from rfl]
    rw [runTimer_polls_false ⟨false, false, false⟩ rfl m]
    simp

/-- Claim C5.  For every interleaving of one timer-overflow handler
invocation with main-loop polls of the timer flag (p polls before the
overflow, q polls after it), the polls before the overflow return false,
the first poll after the overflow returns true, and every subsequent poll
returns false until the next overflow; in particular in the whole
interleaving at most one poll returns true, so two consecutive polls with
no intervening overflow return true at most once. -/
theorem C5_poll_and_clear_coalesces (p q : Nat) :
    (runTimer timerInit
        (List.replicate p TEvent.poll ++ TEvent.overflow :: List.replicate q TEvent.poll)).2 =
      List.replicate p false ++
        (if q = 0 then [] else true :: List.replicate (q - 1) false) ∧
    (runTimer timerInit
        (List.replicate p TEvent.poll ++ TEvent.overflow :: List.replicate q TEvent.poll)).2.count
        true ≤ 1 := by
  have hmain : (runTimer timerInit
      (List.replicate p TEvent.poll ++ TEvent.overflow :: List.replicate q TEvent.poll)).2 =
      List.replicate p false ++
        (if q = 0 then [] else true :: List.replicate (q - 1) false) := by
    rw [runTimer_append, runTimer_polls_false timerInit rfl p]
    simp only [runTimer, timerStep_overflow]
    rw [runTimer_after_overflow q]
    simp
  refine ⟨hmain, ?_⟩
  rw [hmain]
  rcases q with _ | m <;>
    simp [List.count_append, List.count_replicate, List.count_cons]

/-- Each bit symbol the LED encoder computes is the corresponding test
bit of the 24-bit word. -/
theorem shiftRight_and_one (x d : Nat) : x >>> d &&& 1 = (x.testBit d).toNat := by
  rw [Nat.and_one_is_mod, Nat.testBit_to_div_mod, Nat.shiftRight_eq_div_pow]
  rcases Nat.mod_two_eq_zero_or_one (x / 2 ^ d) with h | h <;> rw [h] <;> rfl

/-- Claim C6.  For every color with byte-sized channels, the LED encoder
emits exactly 24 bit symbols: the bits of the green byte first, then the
red byte, then the blue byte, each most-significant-bit first; in
particular for RGB(255,0,0) the emitted sequence is eight 0 symbols
(green 0x00), eight 1 symbols (red 0xFF), eight 0 symbols (blue 0x00). -/
theorem C6_encoder_emits_grb_msb_first :
    (∀ v : Rgb, v.r < 256 → v.g < 256 → v.b < 256 →
      ws2812b_write v = byteBitsMsbFirst v.g ++ byteBitsMsbFirst v.r ++ byteBitsMsbFirst v.b) ∧
    ws2812b_write ⟨255, 0, 0⟩ =
      List.replicate 8 0 ++ List.replicate 8 1 ++ List.replicate 8 0 := by
  constructor
  · intro v hr hg hb
    have hrb : ∀ i, 8 ≤ i → v.r.testBit i = false := by
      intro i hi
      exact Nat.testBit_lt_two_pow (lt_of_lt_of_le hr
        (le_trans (by norm_num) (Nat.pow_le_pow_right (by norm_num) hi)))
    have hbb : ∀ i, 8 ≤ i → v.b.testBit i = false := by
      intro i hi
      exact Nat.testBit_lt_two_pow (lt_of_lt_of_le hb
        (le_trans (by norm_num) (Nat.pow_le_pow_right (by norm_num) hi)))
    unfold ws2812b_write byteBitsMsbFirst ws2812b_grb
    rw [show (List.range 24).reverse =
      [23, 22, 21, 20, 19, 18, 17, 16, 15, 14, 13, 12, 11, 10, 9, 8, 7, 6, 5, 4, 3, 2, 1, 0]
      from rfl]
    rw [show (List.range 8).reverse = [7, 6, 5, 4, 3, 2, 1, 0] from rfl]
    simp only [List.map, List.cons_append, List.nil_append]
    simp only [shiftRight_and_one]
    simp [Nat.testBit_or, Nat.testBit_shiftLeft, hrb, hbb]
  · decide

/-- Claim C6 (witness): the general conjunct applied to the concrete
color with channels r=1, g=2, b=3. -/
theorem C6_witness :
    ws2812b_write ⟨1, 2, 3⟩ = byteBitsMsbFirst 2 ++ byteBitsMsbFirst 1 ++ byteBitsMsbFirst 3 :=
  C6_encoder_emits_grb_msb_first.1 ⟨1, 2, 3⟩ (by decide) (by decide) (by decide)

/-- Claim C7.  When the main loop observes a timer overflow (the shared
flag is set) and the temperature read returns exactly 23.5 degrees
(235000 ten-thousandths), the pass completes without panic and the send
call enqueues into the previously empty TX queue exactly the twelve ASCII
bytes of the text: space, 2, 3, dot, 5, 0, 0, 0, space, C, then CR LF,
and nothing else. -/
theorem C7_temperature_message :
    (mainTick 235000 initState ⟨false, false, true⟩).map (fun pr => pr.1.txq.data) =
      some [32, 50, 51, 46, 53, 48, 48, 48, 32, 67, 13, 10] := rfl

/-- Claim C8.  For every driver state, the error interrupt handler
reports the error status (appends the SSR error bits it read to the
log), clears the parity, framing and overrun error flags, and leaves the
send/receive state unchanged: the whole SCR register (rie, tie, teie,
re, te) and both queues are exactly as before. -/
theorem C8_error_handler_preserves_driver_state (s : SciState) :
    (IEL9 s).scr = s.scr ∧ (IEL9 s).ssr = ⟨false, false, false⟩ ∧
    (IEL9 s).errLog = s.errLog ++ [ssrBits s.ssr] ∧
    (IEL9 s).txq = s.txq ∧ (IEL9 s).rxq = s.rxq :=
  ⟨rfl, rfl, rfl, rfl, rfl⟩

end HelloRa4m1
